import Mathlib

/-!
# Verification of the Gutenberg editor effects and block component

A shallow embedding of the block-editor layer of the gutenberg repository:
the store's side-effect handlers ("effects") reacting to dispatched actions,
the reusable-block id swap performed by the reducer, and the
`BlockListBlock` component's merge wiring.

The effects module itself ships in this repository only through its test
suite; where noted, its handlers are modelled from the specification and the
behaviour pinned down by those tests.  `BlockListBlock.mergeBlocks` is
embedded directly from `src/editor/components/block-list/block.js`.
-/

set_option autoImplicit false

namespace Gutenberg

/-- An attribute value: blocks carry string or numeric attribute values
(e.g. a reusable-block reference `ref` is numeric). -/
inductive AttrValue where
  | str (s : String)
  | int (n : Int)
  deriving DecidableEq, Repr

/-- A block's attribute map, as an association list of named values. -/
abbrev Attrs := List (String × AttrValue)

/-- A static block: unique id (`uid`), type name, attribute map. -/
structure Block where
  uid : String
  name : String
  attributes : Attrs
  deriving DecidableEq, Repr

/-- A reusable block: id (negative while temporary), title, the wrapped
block's type and attributes, and whether its id is still temporary. -/
structure ReusableBlock where
  id : Int
  title : String
  type : String
  attributes : Attrs
  isTemporary : Bool
  deriving DecidableEq, Repr

/-- A block-to-block transform registered on a block type: the names of the
target types it can produce, and the transformation of the attributes into a
new block. -/
structure Transform where
  blocks : List String
  transform : Attrs → Block

/-- A registered block type: its name, an optional merge function combining
the attributes of two blocks, and its `transforms.to` entries. -/
structure BlockType where
  name : String
  merge : Option (Attrs → Attrs → Attrs)
  transformsTo : List Transform

/-- A post as carried by post-update actions: only the status matters to the
effects modelled here. -/
structure Post where
  id : Int
  status : String
  deriving DecidableEq, Repr

/-- The edits attached to a post-update request (only the edited status is
consulted by the failure effect). -/
structure Edits where
  status : Option String
  deriving DecidableEq, Repr

/-- A notice as dispatched by `CREATE_NOTICE`. -/
structure Notice where
  id : String
  status : String
  spokenMessage : String
  isDismissible : Bool
  deriving DecidableEq, Repr

/-- An API error object attached to fetch failures. -/
structure ApiError where
  code : String
  message : String
  deriving DecidableEq, Repr

/-- The actions the modelled effects can dispatch. -/
inductive Action where
  | selectBlock (uid : String) (initialPosition : Option Int)
  | replaceBlocks (uids : List String) (blocks : List Block)
  | savePost
  | createNotice (notice : Notice)
  | createErrorNotice (message : String) (noticeId : String)
  | updateReusableBlock (id : Int) (reusableBlock : ReusableBlock)
  | saveReusableBlock (id : Int)
  | mergeBlocks (blockAUid : String) (blockBUid : String)
  | fetchReusableBlocksSuccess (reusableBlocks : List ReusableBlock)
  | fetchReusableBlocksFailure (error : ApiError)
  | saveReusableBlockSuccess (id : Int) (updatedId : Int)
  | saveReusableBlockFailure (id : Int)
  | removeReusableBlock (id : Int) (associatedBlockUids : List String)
  | deleteReusableBlockSuccess (id : Int)
  | deleteReusableBlockFailure (id : Int)
  deriving DecidableEq, Repr

/-- The outcome of a network request issued by an effect: the promise either
resolves with a value or rejects with an API error. -/
inductive ReqResult (α : Type) where
  | ok (value : α)
  | err (error : ApiError)
  deriving DecidableEq, Repr

/-- Whether an action is one of the typed network-failure actions. -/
def Action.isFailureAction : Action → Bool
  | .fetchReusableBlocksFailure _ => true
  | .saveReusableBlockFailure _ => true
  | .deleteReusableBlockFailure _ => true
  | _ => false

/-! ## Attribute and registry lookups -/

/-- Look up an attribute by name in an attribute map. -/
def lookupAttr : Attrs → String → Option AttrValue
  | [], _ => none
  | (k, v) :: rest, key => if k = key then some v else lookupAttr rest key

/-- The numeric `ref` attribute of a block, when present. -/
def getRef (b : Block) : Option Int :=
  match lookupAttr b.attributes "ref" with
  | some (.int n) => some n
  | _ => none

/-- Overwrite a block's `ref` attribute with a new numeric id. -/
def setRef (b : Block) (newRef : Int) : Block :=
  { b with attributes :=
      ("ref", .int newRef) :: b.attributes.filter (fun p => p.1 ≠ "ref") }

/-- Look up a registered block type by name. -/
def getBlockType : List BlockType → String → Option BlockType
  | [], _ => none
  | bt :: rest, name => if bt.name = name then some bt else getBlockType rest name

/-- `switchToBlockType`: transform a block into blocks of the target type
using the first `transforms.to` entry of the block's own type that lists the
target; `none` when the block's type has no transform to the target. -/
def switchToBlockType (registry : List BlockType) (b : Block)
    (targetName : String) : Option (List Block) :=
  match getBlockType registry b.name with
  | none => none
  | some bt =>
    match bt.transformsTo.find? (fun t => t.blocks.contains targetName) with
    | none => none
    | some t => some [t.transform b.attributes]

/-! ## Effects

Each effect is embedded as a function from the relevant slice of store state
(passed as explicit lookups) and, where the effect issues a network request,
the request's outcome, to the list of actions it dispatches, in dispatch
order. -/

/-- Modelled from the spec: the `AUTOSAVE` effect is absent from `src/`
(only its tests are).  It dispatches `savePost()` when the edited post is
saveable and either new or dirty, except that autosave of an already
published post is not yet implemented; otherwise it dispatches nothing. -/
def autosaveEffect (saveable dirty published isNew : Bool) : List Action :=
  if !saveable then []
  else if !isNew && !dirty then []
  else if published then []
  else [Action.savePost]

/-- Statuses counted as published for post-update notices. -/
def publishStatuses : List String := ["publish", "private", "future"]

/-- Modelled from the spec: the `REQUEST_POST_UPDATE_SUCCESS` effect is
absent from `src/` (only its tests are).  It dispatches a single success
notice with id `SAVE_POST_NOTICE_ID` whose message depends on the status
transition from the previous post to the updated post, and no notice when
neither is published. -/
def requestPostUpdateSuccessEffect (post previousPost : Post) : List Action :=
  let isPublished := publishStatuses.contains previousPost.status
  let willPublish := publishStatuses.contains post.status
  if !isPublished && !willPublish then []
  else if !isPublished && willPublish then
    [Action.createNotice
      { id := "SAVE_POST_NOTICE_ID", status := "success",
        spokenMessage := "Post published!", isDismissible := true }]
  else if isPublished && !willPublish then
    [Action.createNotice
      { id := "SAVE_POST_NOTICE_ID", status := "success",
        spokenMessage := "Post reverted to draft.", isDismissible := true }]
  else
    [Action.createNotice
      { id := "SAVE_POST_NOTICE_ID", status := "success",
        spokenMessage := "Post updated!", isDismissible := true }]

/-- Modelled from the spec: the `REQUEST_POST_UPDATE_FAILURE` effect is
absent from `src/` (only its tests are).  It dispatches a single error
notice with id `SAVE_POST_NOTICE_ID`: `Publishing failed` when the edits
attempted to publish a draft, `Updating failed` otherwise. -/
def requestPostUpdateFailureEffect (post : Post) (edits : Edits) : List Action :=
  let message :=
    if edits.status = some "publish" && post.status = "draft" then
      "Publishing failed"
    else
      "Updating failed"
  [Action.createErrorNotice message "SAVE_POST_NOTICE_ID"]

/-- Modelled from the spec: the `MERGE_BLOCKS` effect is absent from `src/`
(only its tests are).  Given the uids of the two blocks to merge, it fetches
both blocks from state; if block A's type has no merge function it only
selects block A; otherwise it brings block B to A's type (trivially when the
types already agree, through `switchToBlockType` otherwise, aborting when no
transform applies) and dispatches a selection of A at caret position -1
followed by a replacement of both blocks by the merged block, which keeps
A's uid and type and carries the merge function's output attributes. -/
def mergeBlocksEffect (registry : List BlockType)
    (getBlock : String → Option Block) (uidA uidB : String) : List Action :=
  match getBlock uidA, getBlock uidB with
  | some blockA, some blockB =>
    match getBlockType registry blockA.name with
    | none => []
    | some blockType =>
      match blockType.merge with
      | none => [Action.selectBlock blockA.uid none]
      | some mergeFn =>
        let blocksWithTheSameType : Option (List Block) :=
          if blockA.name = blockB.name then some [blockB]
          else switchToBlockType registry blockB blockA.name
        match blocksWithTheSameType with
        | none => []
        | some [] => []
        | some (toMerge :: rest) =>
          [Action.selectBlock blockA.uid (some (-1)),
           Action.replaceBlocks [blockA.uid, blockB.uid]
             ({ blockA with
                attributes := mergeFn blockA.attributes toMerge.attributes } :: rest)]
  | _, _ => []

/-- Modelled from the spec: the `FETCH_REUSABLE_BLOCKS` effect is absent
from `src/` (only its tests are).  When the fetch resolves it dispatches a
`FETCH_REUSABLE_BLOCKS_SUCCESS` with the parsed reusable blocks; when it
rejects it dispatches a single `FETCH_REUSABLE_BLOCKS_FAILURE` carrying the
error object. -/
def fetchReusableBlocksEffect (result : ReqResult (List ReusableBlock)) :
    List Action :=
  match result with
  | .ok reusableBlocks => [Action.fetchReusableBlocksSuccess reusableBlocks]
  | .err error => [Action.fetchReusableBlocksFailure error]

/-- Modelled from the spec: the `SAVE_REUSABLE_BLOCK` effect is absent from
`src/` (only its tests are).  It looks up the reusable block in state and
posts it to the API; when the request resolves with the persisted record it
dispatches a `SAVE_REUSABLE_BLOCK_SUCCESS` carrying the original id and the
server-assigned `updatedId`, and when it rejects it dispatches a single
`SAVE_REUSABLE_BLOCK_FAILURE` carrying the id. -/
def saveReusableBlockEffect (getReusableBlock : Int → Option ReusableBlock)
    (id : Int) (result : ReqResult Int) : List Action :=
  match getReusableBlock id with
  | none => []
  | some _ =>
    match result with
    | .ok updatedId => [Action.saveReusableBlockSuccess id updatedId]
    | .err _ => [Action.saveReusableBlockFailure id]

/-- Modelled from the spec: the `DELETE_REUSABLE_BLOCK` effect is absent
from `src/` (only its tests are).  A reusable block with a temporary id is
never deleted: the effect returns without dispatching.  Otherwise it
optimistically dispatches `REMOVE_REUSABLE_BLOCK` with the uids of the
blocks referencing the reusable block, issues the API delete, and follows
with a single `DELETE_REUSABLE_BLOCK_SUCCESS` or
`DELETE_REUSABLE_BLOCK_FAILURE` carrying the id. -/
def deleteReusableBlockEffect (getReusableBlock : Int → Option ReusableBlock)
    (associatedBlockUids : List String) (id : Int) (result : ReqResult Unit) :
    List Action :=
  match getReusableBlock id with
  | none => []
  | some reusableBlock =>
    if reusableBlock.isTemporary then []
    else
      Action.removeReusableBlock id associatedBlockUids ::
        (match result with
         | .ok _ => [Action.deleteReusableBlockSuccess id]
         | .err _ => [Action.deleteReusableBlockFailure id])

/-- Modelled from the spec: the `CONVERT_BLOCK_TO_STATIC` effect is absent
from `src/` (only its tests are).  It resolves the referenced reusable block
through the referencing block's `ref` attribute and replaces the referencing
block with a newly created block (fresh uid) of the reusable block's type
and attributes. -/
def convertBlockToStaticEffect (getBlock : String → Option Block)
    (getReusableBlock : Int → Option ReusableBlock) (freshUid : String)
    (uid : String) : List Action :=
  match getBlock uid with
  | none => []
  | some oldBlock =>
    match getRef oldBlock with
    | none => []
    | some refId =>
      match getReusableBlock refId with
      | none => []
      | some reusableBlock =>
        [Action.replaceBlocks [oldBlock.uid]
          [{ uid := freshUid, name := reusableBlock.type,
             attributes := reusableBlock.attributes }]]

/-- Modelled from the spec: the `CONVERT_BLOCK_TO_REUSABLE` effect is absent
from `src/` (only its tests are).  It registers a new reusable block under a
freshly generated temporary numeric id wrapping the static block's type and
attributes, dispatches a save of that id, and replaces the static block with
a `core/block` block whose `ref` attribute is that id. -/
def convertBlockToReusableEffect (getBlock : String → Option Block)
    (temporaryId : Int) (freshUid : String) (uid : String) : List Action :=
  match getBlock uid with
  | none => []
  | some oldBlock =>
    let reusableBlock : ReusableBlock :=
      { id := temporaryId, title := "Untitled block", type := oldBlock.name,
        attributes := oldBlock.attributes, isTemporary := true }
    [Action.updateReusableBlock temporaryId reusableBlock,
     Action.saveReusableBlock temporaryId,
     Action.replaceBlocks [oldBlock.uid]
       [{ uid := freshUid, name := "core/block",
          attributes := [("ref", .int temporaryId)] }]]

/-! ## Reducer: reusable-block id swap -/

/-- The slice of editor state relevant to reusable-block consistency: the
blocks in the post and the reusable-blocks map keyed by id. -/
structure EditorState where
  blocks : List Block
  reusableBlocks : List (Int × ReusableBlock)
  deriving Repr

/-- Look up a reusable block by id in the reusable-blocks map. -/
def lookupRB : List (Int × ReusableBlock) → Int → Option ReusableBlock
  | [], _ => none
  | (k, v) :: rest, id => if k = id then some v else lookupRB rest id

/-- Modelled from the spec: the re-keying of a single reusable-blocks map
entry performed by the reducer on `SAVE_REUSABLE_BLOCK_SUCCESS` (the
reducer is absent from `src/`; only its tests are). -/
def swapEntry (id updatedId : Int) (e : Int × ReusableBlock) :
    Int × ReusableBlock :=
  if e.1 = id then (updatedId, { e.2 with id := updatedId, isTemporary := false })
  else e

/-- Modelled from the spec: the rewrite of referencing blocks performed by
the blocks reducer on `SAVE_REUSABLE_BLOCK_SUCCESS`. -/
def swapBlockRef (id updatedId : Int) (b : Block) : Block :=
  if b.name = "core/block" && getRef b = some id then setRef b updatedId else b

/-- Modelled from the spec: the combined reducer handling of
`SAVE_REUSABLE_BLOCK_SUCCESS`: re-key the saved reusable block from its
temporary id to the server-assigned `updatedId`, marking it permanent, and
rewrite the `ref` attribute of every `core/block` block referencing the old
id to the new one. -/
def swapReusableBlockId (s : EditorState) (id updatedId : Int) : EditorState :=
  { blocks := s.blocks.map (swapBlockRef id updatedId),
    reusableBlocks := s.reusableBlocks.map (swapEntry id updatedId) }

/-- Reference consistency: every `core/block` block's `ref` attribute names
an id present in the reusable-blocks map. -/
def refsConsistent (s : EditorState) : Bool :=
  s.blocks.all (fun b =>
    if b.name = "core/block" then
      match getRef b with
      | some r => (lookupRB s.reusableBlocks r).isSome
      | none => true
    else true)

/-! ## BlockListBlock component (src/editor/components/block-list/block.js) -/

/-- The props of `BlockListBlock` consulted by its `mergeBlocks` method:
the block's own uid and the uids of the neighbouring blocks (`none` models a
missing neighbour, for which the selectors return a falsy value). -/
structure MergeProps where
  blockUid : String
  previousBlockUid : Option String
  nextBlockUid : Option String
  deriving DecidableEq, Repr

/-- `BlockListBlock.mergeBlocks` composed with `mapDispatchToProps.onMerge`:
returns without dispatching when merging backward from the first block or
forward from the last block; otherwise dispatches a `mergeBlocks` action of
(previous, own) uid backward and (own, next) uid forward. -/
def componentMergeBlocks (props : MergeProps) (forward : Bool) : List Action :=
  if (!forward && props.previousBlockUid.isNone) ||
      (forward && props.nextBlockUid.isNone) then []
  else if forward then
    match props.nextBlockUid with
    | some nextUid => [Action.mergeBlocks props.blockUid nextUid]
    | none => []
  else
    match props.previousBlockUid with
    | some previousUid => [Action.mergeBlocks previousUid props.blockUid]
    | none => []

/-! ## Lemmas about the reusable-blocks map -/

/-- `swapEntry` on an entry whose key is the swapped id. -/
theorem swapEntry_hit (id updatedId : Int) (v : ReusableBlock) :
    swapEntry id updatedId (id, v) =
      (updatedId, { v with id := updatedId, isTemporary := false }) := by
  simp [swapEntry]

/-- `swapEntry` leaves entries with other keys unchanged. -/
theorem swapEntry_miss (id updatedId k : Int) (v : ReusableBlock)
    (hk : k ≠ id) : swapEntry id updatedId (k, v) = (k, v) := by
  simp [swapEntry, hk]

/-- Re-keying the entry `id` to `updatedId` makes `updatedId` present
whenever `id` was present. -/
theorem lookupRB_swap_hit (m : List (Int × ReusableBlock)) (id updatedId : Int)
    (h : (lookupRB m id).isSome = true) :
    (lookupRB (m.map (swapEntry id updatedId)) updatedId).isSome = true := by
  induction m with
  | nil => simp [lookupRB] at h
  | cons head tail ih =>
    obtain ⟨k, v⟩ := head
    by_cases hk : k = id
    · subst hk
      rw [List.map_cons, swapEntry_hit]
      simp [lookupRB]
    · rw [lookupRB, if_neg hk] at h
      rw [List.map_cons, swapEntry_miss id updatedId k v hk]
      by_cases hku : k = updatedId
      · simp [lookupRB, hku]
      · rw [lookupRB, if_neg hku]
        exact ih h

/-- Re-keying the entry `id` keeps every other present key present. -/
theorem lookupRB_swap_other (m : List (Int × ReusableBlock))
    (id updatedId r : Int) (hr : r ≠ id)
    (h : (lookupRB m r).isSome = true) :
    (lookupRB (m.map (swapEntry id updatedId)) r).isSome = true := by
  induction m with
  | nil => simp [lookupRB] at h
  | cons head tail ih =>
    obtain ⟨k, v⟩ := head
    by_cases hk : k = id
    · subst hk
      have hkr : ¬(k = r) := fun hkr => hr hkr.symm
      rw [lookupRB, if_neg hkr] at h
      rw [List.map_cons, swapEntry_hit]
      by_cases hur : updatedId = r
      · simp [lookupRB, hur]
      · rw [lookupRB, if_neg hur]
        exact ih h
    · rw [List.map_cons, swapEntry_miss id updatedId k v hk]
      by_cases hkr : k = r
      · simp [lookupRB, hkr]
      · rw [lookupRB, if_neg hkr] at h
        rw [lookupRB, if_neg hkr]
        exact ih h

/-- Setting the `ref` attribute leaves the block's name unchanged. -/
theorem setRef_name (b : Block) (newRef : Int) : (setRef b newRef).name = b.name :=
  rfl

/-- Reading back the `ref` attribute just written. -/
theorem getRef_setRef (b : Block) (newRef : Int) :
    getRef (setRef b newRef) = some newRef := by
  simp [getRef, setRef, lookupAttr]

/-- The id swap performed on `SAVE_REUSABLE_BLOCK_SUCCESS` preserves
reference consistency. -/
theorem swapReusableBlockId_refsConsistent (s : EditorState) (id updatedId : Int)
    (hcons : refsConsistent s = true) :
    refsConsistent (swapReusableBlockId s id updatedId) = true := by
  unfold refsConsistent swapReusableBlockId
  rw [List.all_eq_true]
  intro b' hb'
  simp only [List.mem_map] at hb'
  obtain ⟨b, hb, rfl⟩ := hb'
  unfold refsConsistent at hcons
  rw [List.all_eq_true] at hcons
  have hblock := hcons b hb
  unfold swapBlockRef
  by_cases hcond : (b.name = "core/block" && getRef b = some id) = true
  · rw [if_pos hcond]
    simp only [Bool.and_eq_true, decide_eq_true_eq] at hcond
    obtain ⟨hname, href⟩ := hcond
    simp only [setRef_name, hname, if_pos rfl, getRef_setRef]
    simp only [hname, if_pos rfl, href] at hblock
    exact lookupRB_swap_hit s.reusableBlocks id updatedId hblock
  · rw [if_neg hcond]
    by_cases hname : b.name = "core/block"
    · simp only [hname, if_pos rfl] at hblock ⊢
      cases hgr : getRef b with
      | none => simp
      | some r =>
        simp only [hgr] at hblock
        have hr : r ≠ id := by
          intro hrid
          subst hrid
          exact hcond (by simp [hname, hgr])
        exact lookupRB_swap_other s.reusableBlocks id updatedId r hr hblock
    · simp [hname]

/-! ## Concrete fixtures used by the witnesses -/

/-- A freshly created reusable block still holding a temporary id. -/
def sampleReusableBlock : ReusableBlock :=
  { id := -1, title := "Untitled block", type := "core/test-block",
    attributes := [("name", .str "Big Bird")], isTemporary := true }

/-- A permanently persisted reusable block. -/
def samplePermanentRB : ReusableBlock :=
  { id := 123, title := "My cool block", type := "core/test-block",
    attributes := [("name", .str "Big Bird")], isTemporary := false }

/-- A reusable-blocks selector over the two sample records. -/
def sampleGetReusableBlock : Int → Option ReusableBlock := fun i =>
  if i = -1 then some sampleReusableBlock
  else if i = 123 then some samplePermanentRB
  else none

/-- An editor state with one block referencing the temporary id. -/
def sampleState : EditorState :=
  { blocks := [{ uid := "b1", name := "core/block",
                 attributes := [("ref", .int (-1))] }],
    reusableBlocks := [(-1, sampleReusableBlock)] }

/-- A concrete merge function: concatenate the attribute maps. -/
def sampleMergeFn : Attrs → Attrs → Attrs := fun a b => a ++ b

/-- A block type with a merge function and no transforms. -/
def sampleMergeType : BlockType :=
  { name := "core/test-block", merge := some sampleMergeFn, transformsTo := [] }

/-- A block type without merge function or transforms. -/
def sampleNoMergeType : BlockType :=
  { name := "core/test-block-2", merge := none, transformsTo := [] }

/-- A registry holding the two sample block types. -/
def sampleRegistry : List BlockType := [sampleMergeType, sampleNoMergeType]

/-- First sample block for merging. -/
def sampleBlockA : Block :=
  { uid := "chicken", name := "core/test-block",
    attributes := [("content", .str "chicken")] }

/-- Second sample block for merging, of the same type. -/
def sampleBlockB : Block :=
  { uid := "ribs", name := "core/test-block",
    attributes := [("content", .str "ribs")] }

/-- A `core/block` block referencing the permanent reusable block. -/
def sampleRefBlock : Block :=
  { uid := "b1", name := "core/block", attributes := [("ref", .int 123)] }

/-- A block selector over the sample blocks. -/
def sampleGetBlock : String → Option Block := fun uid =>
  if uid = "chicken" then some sampleBlockA
  else if uid = "ribs" then some sampleBlockB
  else if uid = "b1" then some sampleRefBlock
  else none

/-- Sample API error object. -/
def sampleError : ApiError :=
  { code := "unknown_error", message := "An unknown error occurred." }

/-- Sample props for the component merge method. -/
def sampleMergeProps : MergeProps :=
  { blockUid := "b", previousBlockUid := some "a", nextBlockUid := none }

/-! ## Claim theorems -/

/-- C1: for a reusable block saved while it holds a temporary id, when the
`SAVE_REUSABLE_BLOCK` effect's request succeeds the effect dispatches a
`SAVE_REUSABLE_BLOCK_SUCCESS` action carrying the original id and the
server-assigned `updatedId`, and after the reducer swaps the id every block
that referenced the old id still references a present reusable block. -/
theorem save_reusable_block_success_consistent
    (getReusableBlock : Int → Option ReusableBlock) (id updatedId : Int)
    (rb : ReusableBlock) (hget : getReusableBlock id = some rb)
    (_htemp : rb.isTemporary = true) (s : EditorState)
    (hcons : refsConsistent s = true) :
    saveReusableBlockEffect getReusableBlock id (.ok updatedId) =
      [Action.saveReusableBlockSuccess id updatedId] ∧
    refsConsistent (swapReusableBlockId s id updatedId) = true := by
  refine ⟨?_, swapReusableBlockId_refsConsistent s id updatedId hcons⟩
  simp [saveReusableBlockEffect, hget]

/-- Witness for C1 at the sample temporary reusable block and state. -/
theorem save_reusable_block_success_consistent_w :
    saveReusableBlockEffect sampleGetReusableBlock (-1) (.ok 3) =
      [Action.saveReusableBlockSuccess (-1) 3] ∧
    refsConsistent (swapReusableBlockId sampleState (-1) 3) = true :=
  save_reusable_block_success_consistent sampleGetReusableBlock (-1) 3
    sampleReusableBlock (by decide) (by decide) sampleState (by decide)

/-- C2: the `MERGE_BLOCKS` effect: when A's type has no merge function it
dispatches exactly `selectBlock(A.uid)`; when A and B share a type that has
a merge function it dispatches exactly `selectBlock(A.uid, -1)` and a
`replaceBlocks` of both uids by the single merged block keeping A's uid and
type with the merge function's output attributes; when the types differ and
B's type has no transform to A's type it dispatches nothing. -/
theorem merge_blocks_effect_cases (registry : List BlockType)
    (getBlock : String → Option Block) (uidA uidB : String)
    (blockA blockB : Block) (blockType : BlockType)
    (hA : getBlock uidA = some blockA) (hB : getBlock uidB = some blockB)
    (hType : getBlockType registry blockA.name = some blockType) :
    (blockType.merge = none →
      mergeBlocksEffect registry getBlock uidA uidB =
        [Action.selectBlock blockA.uid none]) ∧
    (∀ mergeFn, blockType.merge = some mergeFn → blockA.name = blockB.name →
      mergeBlocksEffect registry getBlock uidA uidB =
        [Action.selectBlock blockA.uid (some (-1)),
         Action.replaceBlocks [blockA.uid, blockB.uid]
           [{ blockA with
              attributes := mergeFn blockA.attributes blockB.attributes }]]) ∧
    (∀ mergeFn, blockType.merge = some mergeFn → blockA.name ≠ blockB.name →
      switchToBlockType registry blockB blockA.name = none →
      mergeBlocksEffect registry getBlock uidA uidB = []) := by
  refine ⟨?_, ?_, ?_⟩
  · intro hmerge
    simp [mergeBlocksEffect, hA, hB, hType, hmerge]
  · intro mergeFn hmerge hsame
    simp only [mergeBlocksEffect, hA, hB, hType, hmerge]
    rw [if_pos hsame]
  · intro mergeFn hmerge hdiff hswitch
    simp [mergeBlocksEffect, hA, hB, hType, hmerge, hdiff, hswitch]

/-- Witness for C2, same-type merge case at the sample blocks. -/
theorem merge_blocks_effect_cases_w :
    mergeBlocksEffect sampleRegistry sampleGetBlock "chicken" "ribs" =
      [Action.selectBlock sampleBlockA.uid (some (-1)),
       Action.replaceBlocks [sampleBlockA.uid, sampleBlockB.uid]
         [{ sampleBlockA with
            attributes :=
              sampleMergeFn sampleBlockA.attributes sampleBlockB.attributes }]] :=
  (merge_blocks_effect_cases sampleRegistry sampleGetBlock "chicken" "ribs"
      sampleBlockA sampleBlockB sampleMergeType (by decide) (by decide)
      rfl).2.1 sampleMergeFn rfl rfl

/-- C3: the `CONVERT_BLOCK_TO_REUSABLE` effect dispatches exactly three
actions for a static block: registration of a new reusable block under a
temporary numeric id with `isTemporary` true, title `Untitled block` and the
static block's type and attributes; a save of that id; and a replacement of
the static block by a `core/block` block whose `ref` is that id. -/
theorem convert_block_to_reusable_dispatches
    (getBlock : String → Option Block) (temporaryId : Int)
    (freshUid uid : String) (oldBlock : Block)
    (hget : getBlock uid = some oldBlock) :
    convertBlockToReusableEffect getBlock temporaryId freshUid uid =
      [Action.updateReusableBlock temporaryId
        { id := temporaryId, title := "Untitled block", type := oldBlock.name,
          attributes := oldBlock.attributes, isTemporary := true },
       Action.saveReusableBlock temporaryId,
       Action.replaceBlocks [oldBlock.uid]
         [{ uid := freshUid, name := "core/block",
            attributes := [("ref", .int temporaryId)] }]] := by
  simp [convertBlockToReusableEffect, hget]

/-- Witness for C3 at the sample static block. -/
theorem convert_block_to_reusable_dispatches_w :
    convertBlockToReusableEffect sampleGetBlock (-1) "u1" "chicken" =
      [Action.updateReusableBlock (-1)
        { id := -1, title := "Untitled block", type := sampleBlockA.name,
          attributes := sampleBlockA.attributes, isTemporary := true },
       Action.saveReusableBlock (-1),
       Action.replaceBlocks [sampleBlockA.uid]
         [{ uid := "u1", name := "core/block",
            attributes := [("ref", .int (-1))] }]] :=
  convert_block_to_reusable_dispatches sampleGetBlock (-1) "u1" "chicken"
    sampleBlockA (by decide)

/-- C4: the `CONVERT_BLOCK_TO_STATIC` effect replaces a block referencing a
reusable block by a newly created block with the reusable block's type and
attributes. -/
theorem convert_block_to_static_dispatches
    (getBlock : String → Option Block)
    (getReusableBlock : Int → Option ReusableBlock) (freshUid uid : String)
    (oldBlock : Block) (refId : Int) (rb : ReusableBlock)
    (hget : getBlock uid = some oldBlock) (href : getRef oldBlock = some refId)
    (hrb : getReusableBlock refId = some rb) :
    convertBlockToStaticEffect getBlock getReusableBlock freshUid uid =
      [Action.replaceBlocks [oldBlock.uid]
        [{ uid := freshUid, name := rb.type, attributes := rb.attributes }]] := by
  simp [convertBlockToStaticEffect, hget, href, hrb]

/-- Witness for C4 at the sample referencing block. -/
theorem convert_block_to_static_dispatches_w :
    convertBlockToStaticEffect sampleGetBlock sampleGetReusableBlock "u2" "b1" =
      [Action.replaceBlocks [sampleRefBlock.uid]
        [{ uid := "u2", name := samplePermanentRB.type,
           attributes := samplePermanentRB.attributes }]] :=
  convert_block_to_static_dispatches sampleGetBlock sampleGetReusableBlock
    "u2" "b1" sampleRefBlock 123 samplePermanentRB (by decide) (by decide)
    (by decide)

/-- C5: when the request issued by `FETCH_REUSABLE_BLOCKS`,
`SAVE_REUSABLE_BLOCK` or `DELETE_REUSABLE_BLOCK` rejects, the effect
dispatches exactly one typed failure action — `FETCH_REUSABLE_BLOCKS_FAILURE`
carrying the error object, `SAVE_REUSABLE_BLOCK_FAILURE` carrying the id,
`DELETE_REUSABLE_BLOCK_FAILURE` carrying the id — as its final dispatch,
with no retry and no recovery dispatch after it. -/
theorem network_failure_single_failure_action (error : ApiError)
    (getReusableBlock : Int → Option ReusableBlock) (saveId deleteId : Int)
    (rbSave rbDelete : ReusableBlock) (associatedBlockUids : List String)
    (hsave : getReusableBlock saveId = some rbSave)
    (hdelete : getReusableBlock deleteId = some rbDelete)
    (hperm : rbDelete.isTemporary = false) :
    fetchReusableBlocksEffect (.err error) =
      [Action.fetchReusableBlocksFailure error] ∧
    saveReusableBlockEffect getReusableBlock saveId (.err error) =
      [Action.saveReusableBlockFailure saveId] ∧
    deleteReusableBlockEffect getReusableBlock associatedBlockUids deleteId
        (.err error) =
      [Action.removeReusableBlock deleteId associatedBlockUids,
       Action.deleteReusableBlockFailure deleteId] ∧
    ((fetchReusableBlocksEffect (.err error)).filter
      Action.isFailureAction).length = 1 ∧
    ((saveReusableBlockEffect getReusableBlock saveId (.err error)).filter
      Action.isFailureAction).length = 1 ∧
    ((deleteReusableBlockEffect getReusableBlock associatedBlockUids deleteId
      (.err error)).filter Action.isFailureAction).length = 1 := by
  refine ⟨rfl, ?_, ?_, rfl, ?_, ?_⟩ <;>
    simp [saveReusableBlockEffect, deleteReusableBlockEffect, hsave, hdelete,
      hperm, List.filter, Action.isFailureAction]

/-- Witness for C5: the save failure at the sample temporary reusable block
(id -1) and the delete failure at the sample permanent one (id 123). -/
theorem network_failure_single_failure_action_w :
    fetchReusableBlocksEffect (.err sampleError) =
      [Action.fetchReusableBlocksFailure sampleError] ∧
    saveReusableBlockEffect sampleGetReusableBlock (-1) (.err sampleError) =
      [Action.saveReusableBlockFailure (-1)] ∧
    deleteReusableBlockEffect sampleGetReusableBlock ["b1"] 123
        (.err sampleError) =
      [Action.removeReusableBlock 123 ["b1"],
       Action.deleteReusableBlockFailure 123] ∧
    ((fetchReusableBlocksEffect (.err sampleError)).filter
      Action.isFailureAction).length = 1 ∧
    ((saveReusableBlockEffect sampleGetReusableBlock (-1)
      (.err sampleError)).filter Action.isFailureAction).length = 1 ∧
    ((deleteReusableBlockEffect sampleGetReusableBlock ["b1"] 123
      (.err sampleError)).filter Action.isFailureAction).length = 1 :=
  network_failure_single_failure_action sampleError sampleGetReusableBlock
    (-1) 123 sampleReusableBlock samplePermanentRB ["b1"] (by decide)
    (by decide) (by decide)

/-- C6: the `REQUEST_POST_UPDATE_FAILURE` effect dispatches exactly one
error notice with id `SAVE_POST_NOTICE_ID`, reading `Publishing failed` when
the edits set status `publish` on a post whose status was `draft` and
`Updating failed` otherwise. -/
theorem request_post_update_failure_notice (post : Post) (edits : Edits) :
    (post.status = "draft" → edits.status = some "publish" →
      requestPostUpdateFailureEffect post edits =
        [Action.createErrorNotice "Publishing failed" "SAVE_POST_NOTICE_ID"]) ∧
    (¬(post.status = "draft" ∧ edits.status = some "publish") →
      requestPostUpdateFailureEffect post edits =
        [Action.createErrorNotice "Updating failed" "SAVE_POST_NOTICE_ID"]) := by
  constructor
  · intro hpost hedits
    simp [requestPostUpdateFailureEffect, hpost, hedits]
  · intro hnot
    have : ¬(edits.status = some "publish" ∧ post.status = "draft") :=
      fun h => hnot ⟨h.2, h.1⟩
    simp only [requestPostUpdateFailureEffect]
    rw [if_neg (by simpa [Bool.and_eq_true, decide_eq_true_eq] using this)]

/-- Witness for C6 at a draft post being published. -/
theorem request_post_update_failure_notice_w :
    requestPostUpdateFailureEffect { id := 1, status := "draft" }
        { status := some "publish" } =
      [Action.createErrorNotice "Publishing failed" "SAVE_POST_NOTICE_ID"] :=
  (request_post_update_failure_notice { id := 1, status := "draft" }
    { status := some "publish" }).1 rfl rfl

/-- C7: the `REQUEST_POST_UPDATE_SUCCESS` effect, for a previous post with
status `draft` and an updated post with status `publish`, dispatches exactly
one `CREATE_NOTICE` whose notice has id `SAVE_POST_NOTICE_ID`, status
`success` and spoken message `Post published!`. -/
theorem request_post_update_success_publish_notice (post previousPost : Post)
    (hprev : previousPost.status = "draft") (hpost : post.status = "publish") :
    requestPostUpdateSuccessEffect post previousPost =
      [Action.createNotice
        { id := "SAVE_POST_NOTICE_ID", status := "success",
          spokenMessage := "Post published!", isDismissible := true }] := by
  simp [requestPostUpdateSuccessEffect, publishStatuses, hprev, hpost]

/-- Witness for C7 at a concrete draft-to-publish transition. -/
theorem request_post_update_success_publish_notice_w :
    requestPostUpdateSuccessEffect { id := 1, status := "publish" }
        { id := 1, status := "draft" } =
      [Action.createNotice
        { id := "SAVE_POST_NOTICE_ID", status := "success",
          spokenMessage := "Post published!", isDismissible := true }] :=
  request_post_update_success_publish_notice { id := 1, status := "publish" }
    { id := 1, status := "draft" } rfl rfl

/-- C8: the `AUTOSAVE` effect dispatches `savePost()` exactly once when the
edited post is saveable, not published, and either new or dirty; in every
other case — not saveable, clean and not new, or published — it dispatches
nothing. -/
theorem autosave_dispatch_condition (saveable dirty published isNew : Bool) :
    autosaveEffect saveable dirty published isNew =
      (if saveable && (isNew || dirty) && !published then [Action.savePost]
       else []) := by
  cases saveable <;> cases dirty <;> cases published <;> cases isNew <;> rfl

/-- C9: the `DELETE_REUSABLE_BLOCK` effect dispatches nothing for a reusable
block whose id is temporary, whatever the would-be request outcome. -/
theorem delete_reusable_block_temporary_noop
    (getReusableBlock : Int → Option ReusableBlock) (id : Int)
    (rb : ReusableBlock) (associatedBlockUids : List String)
    (result : ReqResult Unit) (hget : getReusableBlock id = some rb)
    (htemp : rb.isTemporary = true) :
    deleteReusableBlockEffect getReusableBlock associatedBlockUids id result =
      [] := by
  simp [deleteReusableBlockEffect, hget, htemp]

/-- Witness for C9 at the sample temporary reusable block. -/
theorem delete_reusable_block_temporary_noop_w :
    deleteReusableBlockEffect sampleGetReusableBlock ["b1"] (-1) (.ok ()) =
      [] :=
  delete_reusable_block_temporary_noop sampleGetReusableBlock (-1)
    sampleReusableBlock ["b1"] (.ok ()) (by decide) (by decide)

/-- C10: `BlockListBlock.mergeBlocks(forward)`: with no previous block a
backward merge dispatches nothing and with no next block a forward merge
dispatches nothing; otherwise it dispatches a merge of
(previousBlockUid, block.uid) backward and (block.uid, nextBlockUid)
forward. -/
theorem component_merge_blocks_cases (props : MergeProps) :
    (props.previousBlockUid = none → componentMergeBlocks props false = []) ∧
    (props.nextBlockUid = none → componentMergeBlocks props true = []) ∧
    (∀ previousUid, props.previousBlockUid = some previousUid →
      componentMergeBlocks props false =
        [Action.mergeBlocks previousUid props.blockUid]) ∧
    (∀ nextUid, props.nextBlockUid = some nextUid →
      componentMergeBlocks props true =
        [Action.mergeBlocks props.blockUid nextUid]) := by
  refine ⟨?_, ?_, ?_, ?_⟩
  · intro h
    simp [componentMergeBlocks, h]
  · intro h
    simp [componentMergeBlocks, h]
  · intro previousUid h
    simp [componentMergeBlocks, h]
  · intro nextUid h
    simp [componentMergeBlocks, h]

/-- Witness for C10 at sample props with a previous but no next block. -/
theorem component_merge_blocks_cases_w :
    componentMergeBlocks sampleMergeProps false =
      [Action.mergeBlocks "a" sampleMergeProps.blockUid] ∧
    componentMergeBlocks sampleMergeProps true = [] :=
  ⟨(component_merge_blocks_cases sampleMergeProps).2.2.1 "a" rfl,
   (component_merge_blocks_cases sampleMergeProps).2.1 rfl⟩

end Gutenberg
